import Mathlib

/-!
Verification of the supplylink-analytics-hub aggregation pipelines.

The two Python scripts `backend/scripts/climate_scraper.py` and
`backend/scripts/farm_scraper.py` are shallowly embedded below.  All
side-effecting HTTP fetches are replaced by a "world" record holding, for
each source attempt, the response status code and the payload as the
excluded fetch/parse layer would deliver it (numeric cell text already
parsed into `Option ℚ`, JSON fields already parsed into options).  Python
floats are modelled as exact rationals, Python `round` as round-half-to-even,
and Python exceptions as `Except String`.  The scripts leave several parse
sites unguarded — `land_response.json()` (farm line 71),
`crop_response.json()` (farm line 129), `api_response.json()` and
`rainfall_response.json()` (climate lines 50 and 81) and the
`int(year)`/`float(value)` conversions (climate lines 61-62 and 89-90) —
so a 200-status response with a malformed or unconvertible body aborts the
invocation there; each world carries a boolean per such site saying
whether that parse succeeds, and the pipelines abort (with the string
"JSONDecodeError" standing in for the library exception's text) when it
does not.  Division by zero, which would
raise `ZeroDivisionError` in Python, is totalised by `ℚ`'s `x / 0 = 0`
convention; it is only reachable for seasonal patterns with `rain_base = 0`,
which never occur in the regional parameter tables.
-/

namespace SupplyLink

/-- Python's built-in `round` on a real value: round half to even
(banker's rounding), as applied by the scripts to rational quantities. -/
def pyRound (q : ℚ) : ℤ :=
  if q - ⌊q⌋ < 1/2 then ⌊q⌋
  else if 1/2 < q - ⌊q⌋ then ⌊q⌋ + 1
  else if ⌊q⌋ % 2 = 0 then ⌊q⌋ else ⌊q⌋ + 1

/-- Python's `%` on floats for a positive modulus: `x - floor(x / y) * y`. -/
def pyMod (x y : ℚ) : ℚ := x - ⌊x / y⌋ * y

/-- Month names, `months` in both scripts. -/
def monthsList : List String :=
  ["Jan", "Feb", "Mar", "Apr", "May", "Jun",
   "Jul", "Aug", "Sep", "Oct", "Nov", "Dec"]

/-! ## Climate pipeline (`climate_scraper.py`) -/

/-- One record of a FAOSTAT yearly-trend response: the `year` and `value`
fields may be absent (`item.get` returning `None`). -/
structure TrendItem where
  year : Option ℤ
  value : Option ℚ
deriving DecidableEq

/-- One entry of the output trend series. -/
structure TrendEntry where
  year : ℤ
  value : ℚ
  unit : String
deriving DecidableEq

/-- Trend filtering, `climate_scraper.py` lines 55-64 and 83-92: an item is
kept when `if year and value:` holds, i.e. both fields are present and
truthy (non-zero). -/
def processTrend (u : String) (items : List TrendItem) : List TrendEntry :=
  items.filterMap fun it =>
    match it.year, it.value with
    | some y, some v => if y ≠ 0 ∧ v ≠ 0 then some ⟨y, v, u⟩ else none
    | _, _ => none

/-- One entry of the climate monthly series. -/
structure MonthlyEntry where
  month : String
  temperature : ℚ
  rainfall : ℚ
deriving DecidableEq

/-- An HTML table as the parse layer delivers it: header texts, and rows of
cells where each cell is the result of `float(cell.text.strip())`
(`none` when that parse raises). -/
structure MTable where
  headers : List String
  rows : List (List (Option ℚ))
deriving DecidableEq

/-- Row loop shared by the GIEWS scrapers (`climate_scraper.py` lines
110-124 and 159-173): keep row `i` when `i < len(months)`, it has at least
3 cells, and cells 1 and 2 both parse as floats. -/
def parseMonthlyRows (rows : List (List (Option ℚ))) : List MonthlyEntry :=
  rows.enum.filterMap fun ic =>
    if ic.1 < monthsList.length then
      if 3 ≤ ic.2.length then
        match ic.2.getD 1 none, ic.2.getD 2 none with
        | some t, some r => some ⟨monthsList.getD ic.1 "", t, r⟩
        | _, _ => none
      else none
    else none

/-- First monthly source (GIEWS Earth Observation, lines 101-124): every
table whose headers contain `Month` and (`Temperature` or `Rainfall`)
contributes its data rows (the first `tr` of each table is skipped). -/
def giewsMonthly (tables : List MTable) : List MonthlyEntry :=
  tables.foldl
    (fun acc t =>
      if t.headers.contains "Month" &&
          (t.headers.contains "Temperature" || t.headers.contains "Rainfall")
      then acc ++ parseMonthlyRows (t.rows.drop 1)
      else acc)
    []

/-- One month record of the World Bank climate-portal JSON. -/
structure WBMonth where
  temperature : Option ℚ
  precipitation : Option ℚ
deriving DecidableEq

/-- Second monthly source (World Bank portal, lines 132-145): when the JSON
has a `monthlyData` key, the series is rebuilt from scratch with one entry
per month, defaulting each missing field to 0. -/
def wbMonthlySeries (md : List (String × WBMonth)) : List MonthlyEntry :=
  monthsList.map fun m =>
    let rec? := (md.lookup m).getD ⟨none, none⟩
    ⟨m, rec?.temperature.getD 0, rec?.precipitation.getD 0⟩

/-- Third monthly source (GIEWS Country Briefs, lines 153-173): only the
first `.climate-table` is read, its rows are appended to whatever was
already collected. -/
def giewsBriefMonthly (tables : List MTable) : List MonthlyEntry :=
  match tables with
  | [] => []
  | t :: _ => parseMonthlyRows (t.rows.drop 1)

/-- External responses for one climate-pipeline invocation, in attempt
order.  `apiDataOk` is false when the 200-status temperature response is
fatally unparseable: `api_response.json()` (line 50) raises on a malformed
body, or `int(year)`/`float(value)` (lines 61-62) raise on a kept entry
whose field is truthy but non-numeric — both exceptions are uncaught and
abort the invocation.  `rainDataOk` plays the same role for the rainfall
response (lines 81 and 89-90).  When the flag is true, `apiData`/`rainData`
hold the converted entries (`none` = no `data` key).  The `wbMonthly`
`Option` is `none` when the World Bank body is malformed or lacks the
`monthlyData` key — that call is wrapped in `try/except`, so it only
recovers. -/
structure ClimateWorld where
  probeStatus : ℕ
  apiStatus : ℕ
  apiDataOk : Bool
  apiData : Option (List TrendItem)
  rainStatus : ℕ
  rainDataOk : Bool
  rainData : Option (List TrendItem)
  monthlyStatus : ℕ
  monthlyTables : List MTable
  wbStatus : ℕ
  wbMonthly : Option (List (String × WBMonth))
  giewsStatus : ℕ
  giewsTables : List MTable
deriving DecidableEq

/-- The climate record assembled at `climate_scraper.py` lines 176-182. -/
structure ClimateData where
  region : String
  temperature_trend : List TrendEntry
  rainfall_trend : List TrendEntry
  monthly_data : List MonthlyEntry
  data_source : String
deriving DecidableEq

/-- Region-name table, `regions` with `.get(region_code, "Northern Africa")`. -/
def climateRegions (rc : String) : String :=
  if rc = "1" then "Northern Africa"
  else if rc = "2" then "Eastern Africa"
  else if rc = "3" then "Middle Africa"
  else if rc = "4" then "Southern Africa"
  else if rc = "5" then "Western Africa"
  else "Northern Africa"

/-- Monthly-series assembly, lines 98-173: the GIEWS tables are tried
first; while fewer than 12 entries were collected the World Bank portal is
tried (replacing the series), then the Country Briefs (appending to it).
No synthesis step exists in this pipeline. -/
def climateMonthlyData (w : ClimateWorld) : List MonthlyEntry :=
  let m1 := if w.monthlyStatus = 200 then giewsMonthly w.monthlyTables else []
  let m2 :=
    if m1.length < 12 then
      if w.wbStatus = 200 then
        match w.wbMonthly with
        | some md => wbMonthlySeries md
        | none => m1
      else m1
    else m1
  if m2.length < 12 then
    if w.giewsStatus = 200 then m2 ++ giewsBriefMonthly w.giewsTables else m2
  else m2

/-- The climate pipeline, `scrape_fao_climate_data`.  The initial probe and
the two trend API calls `raise` on a non-success status (lines 22-23, 47-48
and 77-78), and the unguarded `.json()`/`int()`/`float()` parses of those
two 200-status payloads (lines 50, 61-62, 81, 89-90) abort the invocation
when they fail; every later attempt recovers locally. -/
def scrape_fao_climate_data (w : ClimateWorld) (region_code : String) :
    Except String ClimateData :=
  if w.probeStatus ≠ 200 then
    .error ("Failed to access FAO website: " ++ toString w.probeStatus)
  else if w.apiStatus ≠ 200 then
    .error ("Failed to access FAO API: " ++ toString w.apiStatus)
  else if w.apiDataOk = false then
    .error "JSONDecodeError"
  else if w.rainStatus ≠ 200 then
    .error ("Failed to access FAO rainfall API: " ++ toString w.rainStatus)
  else if w.rainDataOk = false then
    .error "JSONDecodeError"
  else
    .ok { region := climateRegions region_code
        , temperature_trend := processTrend "Â°C" (w.apiData.getD [])
        , rainfall_trend := processTrend "mm" (w.rainData.getD [])
        , monthly_data := climateMonthlyData w
        , data_source := "FAOSTAT (Scraped)" }

/-! ## Farm pipeline (`farm_scraper.py`) -/

/-- A latitude/longitude pair. -/
structure Coord where
  lat : ℚ
  lng : ℚ
deriving DecidableEq

/-- Farm-name table with `.get(region_id, ["Unknown Farm"])`. -/
def farm_names (rid : String) : List String :=
  if rid = "1" then ["Green Valley Farm", "Sahara Oasis", "Atlas Highland"]
  else if rid = "2" then ["Eastern Plains", "Highland Ranch", "Victoria Farm"]
  else if rid = "3" then ["Congo Basin Farm", "Equatorial Estate", "Rainforest Plantation"]
  else if rid = "4" then ["Kalahari Estate", "Cape Vineyard", "Southern Meadows"]
  else if rid = "5" then ["Savanna Ranch", "Niger Delta Farm", "Coastal Plantation"]
  else ["Unknown Farm"]

/-- Region-coordinate table with `.get(region_id, {"lat": 0, "lng": 0})`. -/
def region_coords (rid : String) : Coord :=
  if rid = "1" then ⟨30.8, 9.4⟩
  else if rid = "2" then ⟨0.3, 37.9⟩
  else if rid = "3" then ⟨6.6, 20.9⟩
  else if rid = "4" then ⟨-26.5, 24.7⟩
  else if rid = "5" then ⟨11.7, -4.3⟩
  else ⟨0, 0⟩

/-- A regional seasonal pattern, `{rain_base, rain_peak, irr_base, irr_peak}`. -/
structure SeasonPattern where
  rain_base : ℚ
  rain_peak : ℤ
  irr_base : ℚ
  irr_peak : ℤ
deriving DecidableEq

/-- Water-pattern table with `.get(region_id, patterns["1"])`: unknown ids
fall back to region 1's pattern. -/
def patterns (rid : String) : SeasonPattern :=
  if rid = "1" then ⟨30, 0, 50, 6⟩
  else if rid = "2" then ⟨60, 3, 40, 7⟩
  else if rid = "3" then ⟨100, 7, 30, 1⟩
  else if rid = "4" then ⟨50, 1, 45, 7⟩
  else if rid = "5" then ⟨80, 8, 35, 2⟩
  else ⟨30, 0, 50, 6⟩

/-- Irrigation-preference table with `.get(region_id, [0, 1, 2])`. -/
def regional_preferences (rid : String) : List ℕ :=
  if rid = "1" then [0, 2, 4]
  else if rid = "2" then [0, 1, 3]
  else if rid = "3" then [1, 2, 4]
  else if rid = "4" then [0, 1, 3]
  else if rid = "5" then [1, 2, 3]
  else [0, 1, 2]

/-- The fixed irrigation-type enumeration. -/
def irrigation_types : List String :=
  ["Drip", "Sprinkler", "Flood", "Center Pivot", "Subsurface"]

/-- `get_soil_type(ph, organic_matter)`: three pH bands, each split on
`organic_matter < 3`. -/
def get_soil_type (ph om : ℚ) : String :=
  if ph < 5.5 then (if om < 3 then "Sandy Loam" else "Loamy Sand")
  else if ph < 6.5 then (if om < 3 then "Silt Loam" else "Clay Loam")
  else (if om < 3 then "Silty Clay" else "Clay Loam")

/-- `get_irrigation_type(region_id, farm_id)`: the region's preference list
indexed by `int(farm_id) % len(preferences)`. -/
def get_irrigation_type (rid : String) (farm_id : ℤ) : String :=
  irrigation_types.getD
    ((regional_preferences rid).getD
      (farm_id % ((regional_preferences rid).length : ℤ)).toNat 0) ""

/-- Soil-portal JSON `properties`, each field optional (`props.get`). -/
structure SoilProps where
  ph : Option ℚ
  om : Option ℚ
  n : Option ℚ
  p : Option ℚ
  k : Option ℚ
  whc : Option ℚ
deriving DecidableEq

/-- The `soil_analysis` sub-record. -/
structure SoilData where
  ph : ℚ
  organic_matter : ℚ
  nitrogen : ℚ
  phosphorus : ℚ
  potassium : ℚ
  water_holding_capacity : ℚ
deriving DecidableEq

/-- Literal soil defaults, `farm_scraper.py` lines 84-91. -/
def defaultSoilData : SoilData := ⟨6.5, 2.0, 50, 30, 150, 0.15⟩

/-- Soil handling, lines 93-107: a non-success status, malformed JSON or a
missing `properties` key all keep the defaults (`propsOpt = none` covers
the latter two; the `try/except` makes this branch non-fatal). -/
def soilDataOf (soilStatus : ℕ) (propsOpt : Option SoilProps) : SoilData :=
  if soilStatus = 200 then
    match propsOpt with
    | some props =>
        ⟨props.ph.getD 6.5, props.om.getD 2.0, props.n.getD 50,
         props.p.getD 30, props.k.getD 150, props.whc.getD 0.15⟩
    | none => defaultSoilData
  else defaultSoilData

/-- One record of the FAOSTAT crop response; `item.get('item_name', '')`
defaults to the empty string, `item.get('value', 0)` to zero. -/
structure CropItem where
  item_name : String
  value : Option ℚ
deriving DecidableEq

/-- Python dict insertion for `crops[crop_name] = value`: an existing key
keeps its position and gets the new value, a new key is appended. -/
def dictInsert (d : List (String × ℚ)) (key : String) (v : ℚ) :
    List (String × ℚ) :=
  if d.any (fun kv => kv.1 = key) then
    d.map (fun kv => if kv.1 = key then (key, v) else kv)
  else d ++ [(key, v)]

/-- Crop accumulation, lines 131-140: an item enters the `crops` dict and
the running `total` only when `if crop_name and value:` holds (name
non-empty and value truthy, i.e. non-zero). -/
def buildCrops (items : List CropItem) : List (String × ℚ) × ℚ :=
  items.foldl
    (fun acc item =>
      let v := item.value.getD 0
      if item.item_name ≠ "" ∧ v ≠ 0 then
        (dictInsert acc.1 item.item_name v, acc.2 + v)
      else acc)
    ([], 0)

/-- One entry of `field_distribution`; `value` is the integer percentage. -/
structure DistEntry where
  name : String
  value : ℤ
deriving DecidableEq

/-- The literal default crop distribution, lines 121-126. -/
def defaultDistribution : List DistEntry :=
  [⟨"Wheat", 25⟩, ⟨"Barley", 20⟩, ⟨"Maize", 15⟩, ⟨"Fallow", 10⟩]

/-- Sum of the percentages of a distribution. -/
def distSum (l : List DistEntry) : ℤ := (l.map (fun e => e.value)).sum

/-- The per-crop percentage entries, `round((value / total) * 70)` for each
crop in first-seen dict order (lines 143-149). -/
def cropBase (crops : List (String × ℚ)) (total : ℚ) : List DistEntry :=
  crops.map fun cv => ⟨cv.1, pyRound (cv.2 / total * 70)⟩

/-- Field-distribution normalisation for `total > 0`, lines 143-155: the
scaled crop entries followed by a Fallow entry of
`max(5, 100 - sum(computed percentages))`. -/
def normalizeDistribution (crops : List (String × ℚ)) (total : ℚ) :
    List DistEntry :=
  cropBase crops total ++ [⟨"Fallow", max 5 (100 - distSum (cropBase crops total))⟩]

/-- Field-distribution assembly, lines 120-155: any of a non-success
status, a missing `data` key, or an accumulated total of zero leaves the
literal default in place. -/
def fieldDistributionOf (cropStatus : ℕ) (cropData : Option (List CropItem)) :
    List DistEntry :=
  if cropStatus = 200 then
    match cropData with
    | some items =>
        let ct := buildCrops items
        if 0 < ct.2 then normalizeDistribution ct.1 ct.2
        else defaultDistribution
    | none => defaultDistribution
  else defaultDistribution

/-- One entry of the synthesized `water_usage` series. -/
structure WaterEntry where
  month : String
  rainfall : ℤ
  irrigation : ℤ
  efficiency : ℤ
deriving DecidableEq

/-- Circular month distance, lines 198-200 and 204-206:
`abs((i - peak) % 12)` folded to `12 - d` when `d > 6`. -/
def circOffset (i : ℕ) (peak : ℤ) : ℕ :=
  if 6 < (((i : ℤ) - peak) % 12).natAbs
  then 12 - (((i : ℤ) - peak) % 12).natAbs
  else (((i : ℤ) - peak) % 12).natAbs

/-- One synthesized water-usage entry for month index `i`, lines 196-217.
Note that `efficiency` is computed from the unrounded rainfall. -/
def synthEntry (p : SeasonPattern) (i : ℕ) (month : String) : WaterEntry :=
  let rainfall : ℚ := p.rain_base * (2 - (circOffset i p.rain_peak : ℚ) / 3)
  let irrigation : ℚ := p.irr_base * (2 - (circOffset i p.irr_peak : ℚ) / 3)
  let efficiency : ℚ := 65 + 25 * (1 - rainfall / (p.rain_base * 2))
  ⟨month, pyRound rainfall, pyRound irrigation, pyRound efficiency⟩

/-- The seasonal synthesizer: since the AQUASTAT branch (lines 184-192)
never fills `water_usage`, the `if not water_usage:` loop always runs and
the series is always synthesized from the regional pattern. -/
def synthWaterUsage (p : SeasonPattern) : List WaterEntry :=
  monthsList.enum.map fun im => synthEntry p im.1 im.2

/-- One entry of the static risk table. -/
structure RiskEntry where
  riskType : String
  probability : ℤ
  impact : ℤ
  mitigation : String
deriving DecidableEq

/-- The default risk table, lines 229-254.  The Early Warning branch
(lines 256-264) parses nothing, so this table is always the output. -/
def defaultRiskAssessment : List RiskEntry :=
  [⟨"Drought", 50, 3,
    "Implement water conservation practices and drought-resistant crop varieties."⟩,
   ⟨"Pest Infestation", 40, 3,
    "Regular monitoring and integrated pest management strategies."⟩,
   ⟨"Extreme Weather", 30, 4,
    "Weather-resistant infrastructure and crop insurance."⟩,
   ⟨"Soil Degradation", 35, 3,
    "Implement crop rotation and cover crops to maintain soil health."⟩]

/-- External responses for one farm-pipeline invocation.  `landBodyOk` is
false when the 200-status land response has a malformed body:
`land_response.json()` (line 71) is uncaught and aborts the invocation.
`cropBodyOk` is false when the 200-status crop response has a malformed
body: `crop_response.json()` (line 129) is likewise uncaught — it is only
reached when the crop status is 200.  When the flag is true,
`landData`/`cropData` hold the parsed payload (`none` = no `data` key).
The soil and risk parses are wrapped in `try/except`, so `soilProps = none`
covers their malformed bodies and only recovers; `waterStatus` and
`riskStatus` are carried for fidelity although the script never uses their
payloads. -/
structure FarmWorld where
  probeStatus : ℕ
  landStatus : ℕ
  landBodyOk : Bool
  landData : Option (List (Option ℚ))
  soilStatus : ℕ
  soilProps : Option SoilProps
  cropStatus : ℕ
  cropBodyOk : Bool
  cropData : Option (List CropItem)
  waterStatus : ℕ
  riskStatus : ℕ
deriving DecidableEq

/-- Farm-size computation, lines 73-78: `100` unless the land response has
a non-empty `data` list, in which case the first item's value (default 0)
is scaled and clamped into `[50, 1000]`. -/
def farmSizeOf (landData : Option (List (Option ℚ))) : ℚ :=
  match landData with
  | some (item :: _) => max 50 (min 1000 ((item.getD 0) / 10000))
  | _ => 100

/-- The `farm_info` sub-record. -/
structure FarmInfo where
  id : ℤ
  name : String
  size : ℤ
  location : Coord
  soil_type : String
  irrigation_type : String
  crops : List String
deriving DecidableEq

/-- The farm record assembled at `farm_scraper.py` lines 267-285. -/
structure FarmData where
  farm_info : FarmInfo
  soil_analysis : SoilData
  field_distribution : List DistEntry
  water_usage : List WaterEntry
  risk_assessment : List RiskEntry
  data_source : String
deriving DecidableEq

/-- The farm pipeline, `scrape_fao_farm_data`, with `farm_id` already
through `int(...)`.  The probe (lines 22-23) and the land API (lines 68-69)
`raise` on a non-success status, the unguarded `land_response.json()`
(line 71) aborts on a malformed 200-status land body, and the unguarded
`crop_response.json()` (line 129) aborts on a malformed 200-status crop
body; every other attempt recovers locally. -/
def scrape_fao_farm_data (w : FarmWorld) (farm_id : ℤ) (region_id : String) :
    Except String FarmData :=
  if w.probeStatus ≠ 200 then
    .error ("Failed to access FAO website: " ++ toString w.probeStatus)
  else if w.landStatus ≠ 200 then
    .error ("Failed to access FAO land API: " ++ toString w.landStatus)
  else if w.landBodyOk = false then
    .error "JSONDecodeError"
  else if w.cropStatus = 200 ∧ w.cropBodyOk = false then
    .error "JSONDecodeError"
  else
    let farm_list := farm_names region_id
    let farm_name := farm_list.getD (farm_id % (farm_list.length : ℤ)).toNat ""
    let base_coords := region_coords region_id
    let lat_offset := pyMod ((farm_id : ℚ) * 0.1) 1
    let lng_offset := pyMod ((farm_id : ℚ) * 0.15) 1.5
    let soil_data := soilDataOf w.soilStatus w.soilProps
    let fd := fieldDistributionOf w.cropStatus w.cropData
    .ok { farm_info :=
            { id := farm_id
            , name := farm_name
            , size := pyRound (farmSizeOf w.landData)
            , location := ⟨base_coords.lat + lat_offset, base_coords.lng + lng_offset⟩
            , soil_type := get_soil_type soil_data.ph soil_data.organic_matter
            , irrigation_type := get_irrigation_type region_id farm_id
            , crops := (fd.filter (fun e => e.name ≠ "Fallow")).map (fun e => e.name) }
        , soil_analysis := soil_data
        , field_distribution := fd
        , water_usage := synthWaterUsage (patterns region_id)
        , risk_assessment := defaultRiskAssessment
        , data_source := "FAOSTAT (Scraped)" }

/-! ## Helper lemmas -/

theorem floor_le_pyRound (q : ℚ) : ⌊q⌋ ≤ pyRound q := by
  unfold pyRound
  split_ifs <;> omega

theorem pyRound_le_ceil (q : ℚ) : pyRound q ≤ ⌈q⌉ := by
  have hfc : ⌊q⌋ ≤ ⌈q⌉ := Int.floor_le_ceil q
  have hf : (⌊q⌋ : ℚ) ≤ q := Int.floor_le q
  unfold pyRound
  split_ifs with h1 h2 h3
  · exact hfc
  · have hlt : (⌊q⌋ : ℚ) < q := by linarith
    have := Int.lt_ceil.mpr hlt
    omega
  · exact hfc
  · push_neg at h1
    have hlt : (⌊q⌋ : ℚ) < q := by linarith
    have := Int.lt_ceil.mpr hlt
    omega

theorem pyRound_nonneg (q : ℚ) (h : 0 ≤ q) : 0 ≤ pyRound q :=
  le_trans (Int.floor_nonneg.mpr h) (floor_le_pyRound q)

theorem le_pyRound (n : ℤ) (q : ℚ) (h : (n : ℚ) ≤ q) : n ≤ pyRound q :=
  le_trans (Int.le_floor.mpr h) (floor_le_pyRound q)

theorem pyRound_le (n : ℤ) (q : ℚ) (h : q ≤ (n : ℚ)) : pyRound q ≤ n :=
  le_trans (pyRound_le_ceil q) (Int.ceil_le.mpr h)

theorem sum_map_const {α R : Type} [CommSemiring R] (l : List α) (f : α → R)
    (c : R) (h : ∀ a ∈ l, f a = c) : (l.map f).sum = l.length * c := by
  induction l with
  | nil => simp
  | cons a l ih =>
    simp only [List.map_cons, List.sum_cons, List.length_cons]
    rw [h a (by simp), ih (fun x hx => h x (by simp [hx]))]
    push_cast
    ring

theorem distSum_append (a b : List DistEntry) :
    distSum (a ++ b) = distSum a + distSum b := by
  simp [distSum]

theorem distSum_normalize (crops : List (String × ℚ)) (total : ℚ) :
    distSum (normalizeDistribution crops total) =
      distSum (cropBase crops total) +
        max 5 (100 - distSum (cropBase crops total)) := by
  simp [normalizeDistribution, distSum_append, distSum]

theorem circOffset_le_six (i : ℕ) (peak : ℤ) : circOffset i peak ≤ 6 := by
  have h0 : 0 ≤ ((i : ℤ) - peak) % 12 := Int.emod_nonneg _ (by norm_num)
  have h12 : ((i : ℤ) - peak) % 12 < 12 := Int.emod_lt_of_pos _ (by norm_num)
  unfold circOffset
  split_ifs with h <;> omega

/-! ## Claim C5 -/

/-- C5 (confirmed): for every regional pattern and month index `i < 12` the
seasonal synthesizer returns exactly 12 entries in Jan..Dec order, and the
entry at index `i` is the triple computed from the claim's formulas: the
circular distance `d = |((i - peak) mod 12)|` folded to `12 - d` when
`d > 6`, `rainfall = round(rainBase * (2 - d_rain/3))`,
`irrigation = round(irrBase * (2 - d_irr/3))`, and
`efficiency = round(65 + 25 * (1 - rainfall/(rainBase*2)))` (with the
unrounded rainfall).  Determinism is immediate since the synthesizer is a
pure function of the pattern. -/
theorem C5_theorem (p : SeasonPattern) (i : ℕ) (h : i < 12) :
    (synthWaterUsage p).length = 12 ∧
    (synthWaterUsage p).map (fun e => e.month) = monthsList ∧
    (synthWaterUsage p).getD i ⟨"", 0, 0, 0⟩ =
      { month := monthsList.getD i ""
      , rainfall :=
          pyRound (p.rain_base *
            (2 - (((if 6 < (((i : ℤ) - p.rain_peak) % 12).natAbs
                    then 12 - (((i : ℤ) - p.rain_peak) % 12).natAbs
                    else (((i : ℤ) - p.rain_peak) % 12).natAbs) : ℕ) : ℚ) / 3))
      , irrigation :=
          pyRound (p.irr_base *
            (2 - (((if 6 < (((i : ℤ) - p.irr_peak) % 12).natAbs
                    then 12 - (((i : ℤ) - p.irr_peak) % 12).natAbs
                    else (((i : ℤ) - p.irr_peak) % 12).natAbs) : ℕ) : ℚ) / 3))
      , efficiency :=
          pyRound (65 + 25 * (1 -
            (p.rain_base *
              (2 - (((if 6 < (((i : ℤ) - p.rain_peak) % 12).natAbs
                      then 12 - (((i : ℤ) - p.rain_peak) % 12).natAbs
                      else (((i : ℤ) - p.rain_peak) % 12).natAbs) : ℕ) : ℚ) / 3)) /
            (p.rain_base * 2))) } := by
  refine ⟨rfl, rfl, ?_⟩
  interval_cases i <;> rfl

/-- Witness for C5 at the Northern Africa pattern and month index 0. -/
theorem C5_witness :
    (synthWaterUsage (patterns "1")).length = 12 ∧
    ((synthWaterUsage (patterns "1")).getD 0 ⟨"", 0, 0, 0⟩).month = "Jan" := by
  have h := C5_theorem (patterns "1") 0 (by norm_num)
  refine ⟨h.1, ?_⟩
  rw [h.2.2]
  rfl

/-! ## Claim C8 -/

/-- C8 (confirmed): every region's irrigation preference list (including
the unknown-region default) has length 3, and `get_irrigation_type` is
periodic in the farm id with period equal to that length. -/
theorem C8_theorem (rid : String) (f k : ℤ) :
    (regional_preferences rid).length = 3 ∧
    get_irrigation_type rid f =
      get_irrigation_type rid
        (f + k * ((regional_preferences rid).length : ℤ)) := by
  have hl : (regional_preferences rid).length = 3 := by
    unfold regional_preferences
    split_ifs <;> rfl
  refine ⟨hl, ?_⟩
  unfold get_irrigation_type
  rw [hl, Int.add_mul_emod_self]

/-! ## Claim C9 -/

/-- C9 (confirmed): for every pattern with non-negative bases (in
particular the five configured ones), every synthesized entry has
non-negative rainfall and irrigation, and efficiency within [65, 90]; the
folded circular distance lies in [0, 6] so the seasonal factor lies in
[0, 2] and no clamping is needed. -/
theorem C9_theorem (p : SeasonPattern) (hr : 0 ≤ p.rain_base)
    (hi : 0 ≤ p.irr_base) :
    ∀ e ∈ synthWaterUsage p,
      0 ≤ e.rainfall ∧ 0 ≤ e.irrigation ∧
      65 ≤ e.efficiency ∧ e.efficiency ≤ 90 := by
  intro e he
  rw [synthWaterUsage, List.mem_map] at he
  obtain ⟨im, _, rfl⟩ := he
  have hdr : ((circOffset im.1 p.rain_peak : ℕ) : ℚ) ≤ 6 := by
    exact_mod_cast circOffset_le_six im.1 p.rain_peak
  have hdr0 : (0 : ℚ) ≤ ((circOffset im.1 p.rain_peak : ℕ) : ℚ) :=
    Nat.cast_nonneg _
  have hdi : ((circOffset im.1 p.irr_peak : ℕ) : ℚ) ≤ 6 := by
    exact_mod_cast circOffset_le_six im.1 p.irr_peak
  have hdi0 : (0 : ℚ) ≤ ((circOffset im.1 p.irr_peak : ℕ) : ℚ) :=
    Nat.cast_nonneg _
  have hfr0 : (0 : ℚ) ≤ 2 - ((circOffset im.1 p.rain_peak : ℕ) : ℚ) / 3 := by
    linarith
  have hfr2 : 2 - ((circOffset im.1 p.rain_peak : ℕ) : ℚ) / 3 ≤ 2 := by
    linarith
  have hfi0 : (0 : ℚ) ≤ 2 - ((circOffset im.1 p.irr_peak : ℕ) : ℚ) / 3 := by
    linarith
  have hrain0 : (0 : ℚ) ≤
      p.rain_base * (2 - ((circOffset im.1 p.rain_peak : ℕ) : ℚ) / 3) :=
    mul_nonneg hr hfr0
  have hirr0 : (0 : ℚ) ≤
      p.irr_base * (2 - ((circOffset im.1 p.irr_peak : ℕ) : ℚ) / 3) :=
    mul_nonneg hi hfi0
  have heff : (65 : ℚ) ≤
      65 + 25 * (1 -
        p.rain_base * (2 - ((circOffset im.1 p.rain_peak : ℕ) : ℚ) / 3) /
          (p.rain_base * 2)) ∧
      65 + 25 * (1 -
        p.rain_base * (2 - ((circOffset im.1 p.rain_peak : ℕ) : ℚ) / 3) /
          (p.rain_base * 2)) ≤ 90 := by
    rcases eq_or_lt_of_le hr with h0 | hpos
    · rw [← h0]
      norm_num
    · have hq : p.rain_base * (2 - ((circOffset im.1 p.rain_peak : ℕ) : ℚ) / 3) /
          (p.rain_base * 2) =
          (2 - ((circOffset im.1 p.rain_peak : ℕ) : ℚ) / 3) / 2 :=
        mul_div_mul_left _ _ (ne_of_gt hpos)
      rw [hq]
      constructor <;> nlinarith [hfr0, hfr2]
  refine ⟨pyRound_nonneg _ hrain0, pyRound_nonneg _ hirr0,
    le_pyRound 65 _ (by exact_mod_cast heff.1),
    pyRound_le 90 _ (by exact_mod_cast heff.2)⟩

/-- Witness for C9 at the Northern Africa pattern and its first entry. -/
theorem C9_witness :
    0 ≤ ((synthWaterUsage (patterns "1")).get ⟨0, by decide⟩).rainfall ∧
    0 ≤ ((synthWaterUsage (patterns "1")).get ⟨0, by decide⟩).irrigation ∧
    65 ≤ ((synthWaterUsage (patterns "1")).get ⟨0, by decide⟩).efficiency ∧
    ((synthWaterUsage (patterns "1")).get ⟨0, by decide⟩).efficiency ≤ 90 :=
  C9_theorem (patterns "1") (by norm_num [patterns]) (by norm_num [patterns])
    _ (List.get_mem _ _ _)

/-! ## Claim C4 -/

/-- Sum of the raw values of a crop mapping. -/
def cropValuesSum (crops : List (String × ℚ)) : ℚ :=
  (crops.map (fun cv => cv.2)).sum

theorem distSum_cropBase (crops : List (String × ℚ)) (total : ℚ) :
    distSum (cropBase crops total) =
      (crops.map (fun cv => pyRound (cv.2 / total * 70))).sum := by
  simp only [distSum, cropBase, List.map_map]
  rfl

/-- C4 (corrected): for non-negative crop values and positive total, the
normalizer's output is the scaled crop entries in first-seen order followed
by a final Fallow entry of `max(5, 100 - S)`, every percentage is
non-negative, and the total is `max(100, S + 5)` where `S` is the sum of
the computed crop percentages — exactly 100 only when `S ≤ 95`. -/
theorem C4_theorem (crops : List (String × ℚ)) (total : ℚ)
    (hnn : ∀ cv ∈ crops, 0 ≤ cv.2) (hpos : 0 < total) :
    normalizeDistribution crops total =
      cropBase crops total ++
        [⟨"Fallow", max 5 (100 - distSum (cropBase crops total))⟩] ∧
    cropBase crops total =
      crops.map (fun cv => ⟨cv.1, pyRound (cv.2 / total * 70)⟩) ∧
    (∀ e ∈ normalizeDistribution crops total, 0 ≤ e.value) ∧
    distSum (normalizeDistribution crops total) =
      max 100 (distSum (cropBase crops total) + 5) ∧
    (normalizeDistribution crops total).getLast? =
      some ⟨"Fallow", max 5 (100 - distSum (cropBase crops total))⟩ := by
  refine ⟨rfl, rfl, ?_, ?_, ?_⟩
  · intro e he
    rw [normalizeDistribution, List.mem_append] at he
    rcases he with he | he
    · rw [cropBase, List.mem_map] at he
      obtain ⟨cv, hcv, rfl⟩ := he
      exact pyRound_nonneg _
        (mul_nonneg (div_nonneg (hnn cv hcv) hpos.le) (by norm_num))
    · simp only [List.mem_singleton] at he
      subst he
      exact le_trans (by norm_num) (le_max_left 5 _)
  · rw [distSum_normalize]
    omega
  · rw [normalizeDistribution]
    exact List.getLast?_concat _

/-- Concrete input refuting the claimed exact-100 sum: one hundred crops
of equal weight. -/
def crops100 : List (String × ℚ) :=
  (List.range 100).map (fun i => ("c" ++ toString i, 1))

/-- C4 counterexample: for the mapping of 100 crops of value 1 (all values
non-negative, accumulated total 100 > 0) every crop percentage rounds to 1,
so the crop percentages sum to 100 and the Fallow floor of 5 pushes the
output total to 105, not 100. -/
theorem C4_counterexample :
    distSum (normalizeDistribution crops100 (cropValuesSum crops100)) = 105 ∧
    cropValuesSum crops100 = 100 ∧
    crops100.all (fun cv => decide (0 ≤ cv.2)) = true ∧
    (105 : ℤ) ≠ 100 := by
  have hval : ∀ cv ∈ crops100, cv.2 = 1 := by
    intro cv hcv
    rw [crops100, List.mem_map] at hcv
    obtain ⟨i, _, rfl⟩ := hcv
    rfl
  have hlen : crops100.length = 100 := by
    simp [crops100]
  have htot : cropValuesSum crops100 = 100 := by
    rw [cropValuesSum, sum_map_const crops100 (fun cv => cv.2) 1 hval, hlen]
    norm_num
  have hbase : distSum (cropBase crops100 (cropValuesSum crops100)) = 100 := by
    rw [distSum_cropBase,
      sum_map_const crops100
        (fun cv => pyRound (cv.2 / cropValuesSum crops100 * 70)) 1 ?round,
      hlen]
    · norm_num
    case round =>
      intro cv hcv
      dsimp only
      rw [hval cv hcv, htot]
      norm_num [pyRound]
  refine ⟨?_, htot, ?_, by norm_num⟩
  · rw [distSum_normalize, hbase]
    omega
  · rw [List.all_eq_true]
    intro cv hcv
    rw [hval cv hcv]
    norm_num

/-- Witness for C4 at a single crop of weight 30: the output is
`[{Wheat 70}, {Fallow 30}]`, which does sum to exactly 100. -/
theorem C4_witness :
    distSum (normalizeDistribution [("Wheat", (30 : ℚ))] 30) = 100 ∧
    (normalizeDistribution [("Wheat", (30 : ℚ))] 30).getLast? =
      some ⟨"Fallow", 30⟩ := by
  have h := C4_theorem [("Wheat", (30 : ℚ))] 30 ?hnn (by norm_num)
  case hnn =>
    intro cv hcv
    simp only [List.mem_singleton] at hcv
    subst hcv
    norm_num
  have hb : distSum (cropBase [("Wheat", (30 : ℚ))] 30) = 70 := by
    rw [distSum_cropBase]
    simp only [List.map_cons, List.map_nil, List.sum_cons, List.sum_nil]
    norm_num [pyRound]
  constructor
  · rw [h.2.2.2.1, hb]
    norm_num
  · rw [h.2.2.2.2, hb]
    norm_num

/-! ## Claim C6 -/

/-- C6 (confirmed): whenever the accumulated crop total is zero — in
particular for an empty item list — and equally when the crop source is
unavailable (non-success status or missing `data` key), the field
distribution is the literal default `[{Wheat 25}, {Barley 20}, {Maize 15},
{Fallow 10}]`, whose percentages sum to 70, not 100. -/
theorem C6_theorem :
    (∀ items : List CropItem, (buildCrops items).2 = 0 →
        fieldDistributionOf 200 (some items) = defaultDistribution) ∧
    (∀ (s : ℕ) (d : Option (List CropItem)), s ≠ 200 →
        fieldDistributionOf s d = defaultDistribution) ∧
    fieldDistributionOf 200 none = defaultDistribution ∧
    defaultDistribution =
      [⟨"Wheat", 25⟩, ⟨"Barley", 20⟩, ⟨"Maize", 15⟩, ⟨"Fallow", 10⟩] ∧
    distSum defaultDistribution = 70 := by
  refine ⟨?_, ?_, rfl, rfl, rfl⟩
  · intro items h
    simp [fieldDistributionOf, h]
  · intro s d hs
    simp [fieldDistributionOf, hs]

/-- Witness for C6 at the empty item list. -/
theorem C6_witness :
    (buildCrops []).2 = 0 ∧
    fieldDistributionOf 200 (some []) = defaultDistribution :=
  ⟨rfl, C6_theorem.1 [] rfl⟩

/-! ## Claim C7 -/

/-- C7 (corrected): a fetched trend entry is included if and only if its
`year` and `value` are present AND truthy — Python's `if year and value:`
additionally excludes a present, non-null value (or year) equal to zero.
Skipping is per-entry, so the fetch never fails, and every output entry
carries a concrete year and value (no nulls). -/
theorem C7_theorem (u : String) (items : List TrendItem) (e : TrendEntry) :
    e ∈ processTrend u items ↔
      ((⟨some e.year, some e.value⟩ : TrendItem) ∈ items ∧
        e.year ≠ 0 ∧ e.value ≠ 0 ∧ e.unit = u) := by
  rw [processTrend, List.mem_filterMap]
  constructor
  · rintro ⟨⟨ay, av⟩, ha, hf⟩
    rcases ay with _ | y
    · simp at hf
    rcases av with _ | v
    · simp at hf
    rw [show (match (⟨some y, some v⟩ : TrendItem).year,
            (⟨some y, some v⟩ : TrendItem).value with
          | some y, some v =>
              if y ≠ 0 ∧ v ≠ 0 then some (⟨y, v, u⟩ : TrendEntry) else none
          | _, _ => none) =
          (if y ≠ 0 ∧ v ≠ 0 then some (⟨y, v, u⟩ : TrendEntry) else none)
        from rfl] at hf
    rw [Option.ite_none_right_eq_some] at hf
    obtain ⟨⟨hy, hv⟩, he⟩ := hf
    injection he with he
    subst he
    exact ⟨ha, hy, hv, rfl⟩
  · rintro ⟨hmem, hy, hv, hu⟩
    refine ⟨⟨some e.year, some e.value⟩, hmem, ?_⟩
    show (if e.year ≠ 0 ∧ e.value ≠ 0
        then some (⟨e.year, e.value, u⟩ : TrendEntry) else none) = some e
    rw [if_pos ⟨hy, hv⟩, ← hu]

/-- C7 counterexample: the entry `{year: 2020, value: 0}` has both fields
present and non-null, yet the pipeline drops it (value 0 is falsy), so the
claimed "included iff present and non-null" fails. -/
theorem C7_counterexample :
    processTrend "Â°C" [⟨some 2020, some 0⟩] = [] ∧
    (⟨some 2020, some 0⟩ : TrendItem).year ≠ none ∧
    (⟨some 2020, some 0⟩ : TrendItem).value ≠ none := by
  refine ⟨rfl, by simp, by simp⟩

/-- Witness for C7: a present, non-zero entry is included. -/
theorem C7_witness :
    (⟨2021, 5, "mm"⟩ : TrendEntry) ∈
      processTrend "mm" [⟨some 2021, some 5⟩] := by
  rw [C7_theorem]
  refine ⟨by simp, by norm_num, by norm_num, rfl⟩

/-! ## Concrete worlds and record extractors used by pipeline-level claims -/

/-- Farm world where the probe and the land API succeed (with a
well-formed body) and every other source is unavailable. -/
def fwOk : FarmWorld :=
  ⟨200, 200, true, none, 404, none, 404, true, none, 404, 404⟩

/-- Climate world where the probe and both trend APIs succeed with empty
data and all three monthly sources are unavailable. -/
def cwEmpty : ClimateWorld :=
  ⟨200, 200, true, some [], 200, true, some [], 404, [], 404, none, 404, []⟩

/-- Placeholder farm record for the error case of `farmRecOf`. -/
def junkFarm : FarmData :=
  ⟨⟨0, "", 0, ⟨0, 0⟩, "", "", []⟩, ⟨0, 0, 0, 0, 0, 0⟩, [], [], [], ""⟩

/-- Extract the record of a successful farm-pipeline run. -/
def farmRecOf (x : Except String FarmData) : FarmData :=
  match x with
  | .ok r => r
  | .error _ => junkFarm

/-- Placeholder climate record for the error case of `climRecOf`. -/
def junkClimate : ClimateData := ⟨"", [], [], [], ""⟩

/-- Extract the record of a successful climate-pipeline run. -/
def climRecOf (x : Except String ClimateData) : ClimateData :=
  match x with
  | .ok r => r
  | .error _ => junkClimate

/-! ## Claim C1 -/

/-- C1 (corrected): when none of the three monthly sources responds
successfully, a successful climate-pipeline run returns an EMPTY
`monthly_data` — the climate pipeline has no synthesis step for the
monthly series, so the record can be partial. -/
theorem C1_theorem (w : ClimateWorld) (rc : String) (r : ClimateData)
    (h1 : w.monthlyStatus ≠ 200) (h2 : w.wbStatus ≠ 200)
    (h3 : w.giewsStatus ≠ 200)
    (h : scrape_fao_climate_data w rc = .ok r) :
    r.monthly_data = [] := by
  rw [scrape_fao_climate_data] at h
  split_ifs at h with hp ha hpa hr hpr
  cases h
  simp [climateMonthlyData, h1, h2, h3]

/-- C1 counterexample: with the probe and both trend APIs succeeding but
every monthly source down, the pipeline returns a record whose
`monthly_data` has 0 entries, not the claimed 12. -/
theorem C1_counterexample :
    (scrape_fao_climate_data cwEmpty "1").map
        (fun r => r.monthly_data.length) = .ok 0 ∧
    (0 : ℕ) ≠ 12 :=
  ⟨rfl, by norm_num⟩

/-- Witness for C1 at the concrete world `cwEmpty`. -/
theorem C1_witness :
    (climRecOf (scrape_fao_climate_data cwEmpty "1")).monthly_data = [] :=
  C1_theorem cwEmpty "1" (climRecOf (scrape_fao_climate_data cwEmpty "1"))
    (by decide) (by decide) (by decide) rfl

/-! ## Claim C2 -/

/-- C3 (corrected): an unknown region id does NOT fall back to region 1's
values — the coordinate lookup defaults to `{lat 0, lng 0}` and the
irrigation preference lookup to `[0, 1, 2]` (Drip, Sprinkler, Flood),
which differ from region 1's `{lat 30.8, lng 9.4}` and `[0, 2, 4]`.  Only
the seasonal water pattern (and nothing else) defaults to region 1's
entry; the farm-name lookup defaults to `["Unknown Farm"]`. -/
theorem C3_theorem (rid : String) (h1 : rid ≠ "1") (h2 : rid ≠ "2")
    (h3 : rid ≠ "3") (h4 : rid ≠ "4") (h5 : rid ≠ "5") :
    region_coords rid = ⟨0, 0⟩ ∧
    regional_preferences rid = [0, 1, 2] ∧
    patterns rid = patterns "1" ∧
    farm_names rid = ["Unknown Farm"] := by
  refine ⟨?_, ?_, ?_, ?_⟩ <;>
    simp [region_coords, regional_preferences, patterns, farm_names,
      h1, h2, h3, h4, h5]

/-- C3 counterexample: for the unknown region id "9" the base coordinate
and the irrigation preference list differ from region 1's, and the
pipeline-level irrigation type for farm 1 differs accordingly. -/
theorem C3_counterexample :
    region_coords "9" = ⟨0, 0⟩ ∧
    region_coords "1" = ⟨30.8, 9.4⟩ ∧
    region_coords "9" ≠ region_coords "1" ∧
    regional_preferences "9" = [0, 1, 2] ∧
    regional_preferences "1" = [0, 2, 4] ∧
    regional_preferences "9" ≠ regional_preferences "1" ∧
    get_irrigation_type "9" 1 = "Sprinkler" ∧
    get_irrigation_type "1" 1 = "Flood" ∧
    (scrape_fao_farm_data fwOk 1 "9").map
        (fun r => r.farm_info.irrigation_type) = .ok "Sprinkler" := by
  refine ⟨rfl, rfl, ?_, rfl, rfl, by decide, rfl, rfl, rfl⟩
  rw [show region_coords "9" = ⟨0, 0⟩ from rfl,
    show region_coords "1" = ⟨30.8, 9.4⟩ from rfl]
  intro h
  have := congrArg Coord.lat h
  norm_num at this

/-- Witness for C3 at the unknown region id "9". -/
theorem C3_witness :
    region_coords "9" = ⟨0, 0⟩ ∧
    regional_preferences "9" = [0, 1, 2] ∧
    patterns "9" = patterns "1" ∧
    farm_names "9" = ["Unknown Farm"] :=
  C3_theorem "9" (by decide) (by decide) (by decide) (by decide) (by decide)

/-! ## Claim C10 -/

theorem fallow_mem_fieldDistribution (s : ℕ) (d : Option (List CropItem)) :
    "Fallow" ∈ (fieldDistributionOf s d).map (fun e => e.name) := by
  rw [fieldDistributionOf.eq_def]
  split_ifs with hs
  · cases d with
    | none => simp [defaultDistribution]
    | some items =>
      dsimp only
      split_ifs with ht
      · simp [normalizeDistribution]
      · simp [defaultDistribution]
  · simp [defaultDistribution]

/-- C10 (confirmed): in every record the farm pipeline produces, the crops
list is exactly the field-distribution names with every "Fallow" entry
filtered out (order preserved); "Fallow" never appears in the crops list
although a Fallow entry is always present in the field distribution. -/
theorem C10_theorem (w : FarmWorld) (f : ℤ) (rid : String) (r : FarmData)
    (h : scrape_fao_farm_data w f rid = .ok r) :
    r.farm_info.crops =
      (r.field_distribution.filter (fun e => e.name ≠ "Fallow")).map
        (fun e => e.name) ∧
    "Fallow" ∉ r.farm_info.crops ∧
    "Fallow" ∈ r.field_distribution.map (fun e => e.name) := by
  rw [scrape_fao_farm_data] at h
  split_ifs at h with hp hl hb hc
  cases h
  refine ⟨rfl, ?_, fallow_mem_fieldDistribution w.cropStatus w.cropData⟩
  intro hmem
  simp only [List.mem_map, List.mem_filter] at hmem
  obtain ⟨e, ⟨_, hne⟩, hname⟩ := hmem
  exact absurd hname (by simpa using hne)

/-- Witness for C10 at a concrete successful run. -/
theorem C10_witness :
    "Fallow" ∉ (farmRecOf (scrape_fao_farm_data fwOk 0 "1")).farm_info.crops ∧
    "Fallow" ∈
      (farmRecOf (scrape_fao_farm_data fwOk 0 "1")).field_distribution.map
        (fun e => e.name) := by
  have h := C10_theorem fwOk 0 "1"
    (farmRecOf (scrape_fao_farm_data fwOk 0 "1")) rfl
  exact ⟨h.2.1, h.2.2⟩

end SupplyLink
